import Mathlib

/-
Verification of the wind-alert lambda (src/lambda_function.py).

The Python source is shallowly embedded below.  Python ints are `Int`,
Python floats are modelled as `ℚ` (only parsing success/failure and sign
matter here, never rounding), Python strings are `String`, exceptions are
an explicit `PyError` inductive threaded through `Except`, and Python
dicts (which preserve insertion order) are association lists without
duplicate keys.
-/

namespace WindAlert

/-- Python exceptions that the embedded code can raise.  Each constructor
corresponds to one raise site / propagating builtin exception of
`lambda_function.py`:
* `missingCaptionError`: line 48, raised when `table.find('caption')` is `None`;
* `dateFormatError`: line 53, raised when the caption regex does not match or
  `strptime` rejects the captured text;
* `tableShapeError`: line 60, raised when the transposed header column differs
  from `EXPECTED_DIMENSIONS`;
* `indexError`: the uncaught `IndexError` from `transposed[0]` when the table
  has no rows;
* `valueError lit`: the uncaught `ValueError` from `int(lit)`/`float(lit)` in
  `from_strings`; the Python message carries the offending literal `lit`
  (e.g. "invalid literal for int() with base 10: ...") and nothing else;
* `unpackError`: the uncaught `ValueError` from tuple unpacking in the
  `for hour, temperature, ... in transposed[1:]` loop when a column does not
  have exactly 5 entries;
* `keyError k`: the uncaught `KeyError` from `LOCATIONS[k]` in
  `generate_alert`. -/
inductive PyError where
  | missingCaptionError
  | dateFormatError
  | tableShapeError
  | indexError
  | valueError (literal : String)
  | unpackError
  | keyError (key : String)
  deriving DecidableEq, Repr

/-- `datetime.date`: a plain (year, month, day) triple. -/
structure PyDate where
  year : ℕ
  month : ℕ
  day : ℕ
  deriving DecidableEq, Repr

/-- One row of the forecast table (class `ThreeHourForecast`, lines 24-31).
Field names follow the Python attributes. -/
structure ThreeHourForecast where
  hour : Int
  temperature : ℚ
  wind_speed : Int
  wind_direction : String
  rain_fall : ℚ
  deriving DecidableEq, Repr

/-- `HOUR_RANGE = (9, 16)` (line 11). -/
def HOUR_RANGE : Int × Int := (9, 16)

/-- `MIN_WIND_SPEED = 20` (line 12). -/
def MIN_WIND_SPEED : Int := 20

/-- `LOCATIONS` (lines 15-17): insertion-ordered dict code ↦ display name. -/
def LOCATIONS : List (String × String) :=
  [("TMTWSC", "Tai Mei Tuk"), ("S", "Stanley"), ("TM", "Tap Mun")]

/-- `EXPECTED_DIMENSIONS` (lines 18-19).  Note the source spells the
temperature unit with a letter o: `'Temperature (oC)'`. -/
def EXPECTED_DIMENSIONS : List String :=
  ["Time (Hour)", "Temperature (oC)", "Wind Speed (km/h)", "Wind Direction",
   "3-Hourly Rainfall (mm)"]

/-! ### Python `int()` and `float()` on cell texts -/

/-- Numeric value of a decimal digit character. -/
def digitVal (c : Char) : ℕ := c.toNat - '0'.toNat

/-- Natural number denoted by a list of decimal digits. -/
def natOfDigits (l : List Char) : ℕ := l.foldl (fun a c => 10 * a + digitVal c) 0

/-- `l` is a non-empty list of decimal digits. -/
def allDigits (l : List Char) : Bool := !l.isEmpty && l.all Char.isDigit

/-- Python `int(s)` on the plain decimal literals that occur as table cells:
an optional sign followed by digits.  (Surrounding whitespace and underscore
separators, which Python also accepts, do not occur in table cell texts and
are not modelled.)  Failure (`ValueError`) is `none`. -/
def pyInt (s : String) : Option Int :=
  match s.toList with
  | '-' :: rest => if allDigits rest then some (-(natOfDigits rest : Int)) else none
  | '+' :: rest => if allDigits rest then some (natOfDigits rest : Int) else none
  | cs => if allDigits cs then some (natOfDigits cs : Int) else none

/-- Unsigned decimal literal with an optional fractional part, as accepted by
Python `float()`: `digits`, `digits.`, `digits.digits` or `.digits`. -/
def floatCore (cs : List Char) : Option ℚ :=
  let ip := cs.takeWhile (fun c => c ≠ '.')
  match cs.drop ip.length with
  | [] => if allDigits ip then some (natOfDigits ip : ℚ) else none
  | '.' :: fp =>
      if ip.all Char.isDigit && fp.all Char.isDigit && !(ip.isEmpty && fp.isEmpty) then
        some ((natOfDigits ip : ℚ) + (natOfDigits fp : ℚ) / (10 ^ fp.length : ℚ))
      else none
  | _ :: _ => none

/-- Python `float(s)` on the plain decimal literals that occur as table cells:
an optional sign followed by `floatCore`.  (Exponent, `inf`/`nan` and
whitespace forms do not occur in table cells and are not modelled.)
Failure (`ValueError`) is `none`. -/
def pyFloat (s : String) : Option ℚ :=
  match s.toList with
  | '-' :: rest => (floatCore rest).map (fun q => -q)
  | '+' :: rest => floatCore rest
  | cs => floatCore cs

/-! ### The caption regex and `strptime` (lines 50-51) -/

/-- Consume the literal character list `p` from the front of `l`. -/
def dropLit : List Char → List Char → Option (List Char)
  | [], l => some l
  | _ :: _, [] => none
  | c :: p, x :: l => if c = x then dropLit p l else none

/-- Consume exactly four decimal digits (the `\d\x7b4\x7d` of the caption
regex). -/
def take4Digits : List Char → Option (ℕ × List Char)
  | a :: b :: c :: d :: rest =>
      if a.isDigit && b.isDigit && c.isDigit && d.isDigit then
        some (natOfDigits [a, b, c, d], rest)
      else none
  | _ => none

/-- Consume one or two decimal digits followed by a `-` (greedy with
backtracking, as the regex engine does for `\d\x7b1,2\x7d-`), returning the
number and the remainder after the dash. -/
def takeMonthDash : List Char → Option (ℕ × List Char)
  | a :: b :: rest =>
      if a.isDigit then
        if b.isDigit then
          match rest with
          | '-' :: rest2 => some (10 * digitVal a + digitVal b, rest2)
          | _ => none
        else if b = '-' then some (digitVal a, rest)
        else none
      else none
  | _ => none

/-- Consume one or two decimal digits (greedy `\d\x7b1,2\x7d`); since
`re.match` does not anchor the end, trailing characters are ignored. -/
def takeDay : List Char → Option ℕ
  | a :: b :: _ =>
      if a.isDigit then
        if b.isDigit then some (10 * digitVal a + digitVal b) else some (digitVal a)
      else none
  | [a] => if a.isDigit then some (digitVal a) else none
  | [] => none

/-- `re.match('Forecast Date: (\d\x7b4\x7d-\d\x7b1,2\x7d-\d\x7b1,2\x7d)', caption)` —
the numbers captured by the group, or `none` when the regex does not match.
`re.match` anchors only at the start, so trailing text is allowed. -/
def matchForecastDate (caption : String) : Option (ℕ × ℕ × ℕ) :=
  match dropLit "Forecast Date: ".toList caption.toList with
  | none => none
  | some r1 =>
    match take4Digits r1 with
    | none => none
    | some (y, r2) =>
      match r2 with
      | '-' :: r3 =>
        match takeMonthDash r3 with
        | none => none
        | some (m, r4) =>
          match takeDay r4 with
          | none => none
          | some d => some (y, m, d)
      | _ => none

/-- Gregorian leap-year rule (as used by `datetime`). -/
def isLeap (y : ℕ) : Bool := (y % 4 = 0 && y % 100 ≠ 0) || y % 400 = 0

/-- Number of days in month `m` of year `y`. -/
def daysInMonth (y m : ℕ) : ℕ :=
  if m = 2 then (if isLeap y then 29 else 28)
  else if m = 4 ∨ m = 6 ∨ m = 9 ∨ m = 11 then 30
  else 31

/-- `datetime.strptime(s, '%Y-%m-%d').date()` applied to the captured group:
the group always has the textual shape `\d\x7b4\x7d-\d\x7b1,2\x7d-\d\x7b1,2\x7d`, so what
remains is the calendar validation `strptime`/`datetime` performs — month
1–12, day within the month, year ≥ `MINYEAR` (= 1).  `none` is the
`ValueError` case. -/
def strptimeDate (y m d : ℕ) : Option PyDate :=
  if 1 ≤ y ∧ 1 ≤ m ∧ m ≤ 12 ∧ 1 ≤ d ∧ d ≤ daysInMonth y m then
    some ⟨y, m, d⟩
  else none

/-- Lines 49-53: match the caption against the date regex and parse the
captured text; `AttributeError` (no match) and `ValueError` (invalid date)
are both turned into the same raise at line 53. -/
def parseCaptionDate (caption : String) : Except PyError PyDate :=
  match matchForecastDate caption with
  | none => .error .dateFormatError
  | some (y, m, d) =>
    match strptimeDate y m d with
    | none => .error .dateFormatError
    | some dt => .ok dt

/-! ### Table shape and parsing (lines 38-67) -/

/-- One raw HTML table, abstracted (as in the spec) to its caption text, if
any, and its rows of cell texts (`td, th` texts per `tr`). -/
structure HTMLTable where
  caption : Option String
  rows : List (List String)
  deriving DecidableEq, Repr

/-- `list(zip(*rows))` (line 56): the transpose, truncated to the shortest
row; `zip()` of no iterables is empty. -/
def pyZip (rows : List (List String)) : List (List String) :=
  match rows with
  | [] => []
  | r :: rs =>
    let n := rs.foldl (fun acc row => min acc row.length) r.length
    (List.range n).map (fun i => (r :: rs).map (fun row => row.getD i ""))

/-- First-error `mapM` for `Except`, mirroring a Python loop that may raise
on any element. -/
def mapMExcept (f : α → Except PyError β) : List α → Except PyError (List β)
  | [] => .ok []
  | x :: xs =>
    match f x with
    | .error e => .error e
    | .ok y =>
      match mapMExcept f xs with
      | .error e => .error e
      | .ok ys => .ok (y :: ys)

/-- `ThreeHourForecast.from_strings` (lines 33-36): strict positional
conversion, `int`/`float` failures propagate as `ValueError` carrying the
offending literal; conversions are evaluated left to right. -/
def from_strings (hour_str temperature_str wind_speed_str wind_direction_str
    rainfall_str : String) : Except PyError ThreeHourForecast :=
  match pyInt hour_str with
  | none => .error (.valueError hour_str)
  | some h =>
    match pyFloat temperature_str with
    | none => .error (.valueError temperature_str)
    | some t =>
      match pyInt wind_speed_str with
      | none => .error (.valueError wind_speed_str)
      | some w =>
        match pyFloat rainfall_str with
        | none => .error (.valueError rainfall_str)
        | some r => .ok ⟨h, t, w, wind_direction_str, r⟩

/-- The tuple unpacking plus `from_strings` call of the loop at lines 64-65:
a column that is not a 5-tuple raises the unpacking `ValueError`. -/
def fromTuple : List String → Except PyError ThreeHourForecast
  | [h, t, w, dir, r] => from_strings h t w dir r
  | _ => .error .unpackError

/-- `ThreeHourForecast.parse_forecast_table` (lines 38-67). -/
def parse_forecast_table (table : HTMLTable) :
    Except PyError (PyDate × List ThreeHourForecast) :=
  match table.caption with
  | none => .error .missingCaptionError
  | some cap =>
    match parseCaptionDate cap with
    | .error e => .error e
    | .ok d =>
      match pyZip table.rows with
      | [] => .error .indexError
      | hd :: rest =>
        if hd = EXPECTED_DIMENSIONS then
          match mapMExcept fromTuple rest with
          | .error e => .error e
          | .ok fs => .ok (d, fs)
        else .error .tableShapeError

/-- `ThreeHourForecast.is_strong` (lines 69-76). -/
def is_strong (f : ThreeHourForecast) : Bool :=
  decide (MIN_WIND_SPEED ≤ f.wind_speed) &&
    (decide (HOUR_RANGE.1 ≤ f.hour) && decide (f.hour ≤ HOUR_RANGE.2))

/-- `ThreeHourForecast.summary` (lines 78-79). -/
def summary (f : ThreeHourForecast) : String :=
  toString f.hour ++ ":00 - " ++ toString f.wind_speed ++ " km/h"

deriving instance DecidableEq for Except

/-! ### Python dicts as insertion-ordered association lists -/

/-- Dict lookup `d[k]` / `d.get(k)`: first pair with the given key. -/
def plookup [DecidableEq α] (k : α) : List (α × β) → Option β
  | [] => none
  | (k', v) :: rest => if k = k' then some v else plookup k rest

/-- Dict assignment `d[k] = v`: replace the value under an existing key in
place, else append the new pair (Python dicts hold each key once, preserve
insertion order and update in place). -/
def pySet [DecidableEq α] : List (α × β) → α → β → List (α × β)
  | [], k, v => [(k, v)]
  | p :: rest, k, v => if p.1 = k then (k, v) :: rest else p :: pySet rest k v

/-- A `(forecast_date, location, forecasts)` triple appended by the handler. -/
abbrev Finding := PyDate × String × List ThreeHourForecast

/-- The body of the loop in `group_by_date_location` (lines 93-95):
`results.setdefault(forecast_date, \x7b\x7d)` followed by
`date_data[location] = forecasts`. -/
def groupStep (results : List (PyDate × List (String × List ThreeHourForecast)))
    (x : Finding) : List (PyDate × List (String × List ThreeHourForecast)) :=
  match plookup x.1 results with
  | some inner => pySet results x.1 (pySet inner x.2.1 x.2.2)
  | none => results ++ [(x.1, [(x.2.1, x.2.2)])]

/-- `group_by_date_location` (lines 85-97). -/
def group_by_date_location (date_locations : List Finding) :
    List (PyDate × List (String × List ThreeHourForecast)) :=
  date_locations.foldl groupStep []

/-- Two-level lookup into the grouped structure: `results[d][c]`. -/
def plookup2 (g : List (PyDate × List (String × List ThreeHourForecast)))
    (d : PyDate) (c : String) : Option (List ThreeHourForecast) :=
  match plookup d g with
  | none => none
  | some locs => plookup c locs

/-! ### `strftime` for the two formats used (lines 108, 114) -/

/-- Zero-pad a number to two digits, as `%d`/`%m` do. -/
def pad2 (n : ℕ) : String := if n < 10 then "0" ++ toString n else toString n

/-- Leap days in years `1..y` (helper for the proleptic-Gregorian ordinal). -/
def leapsBefore (y : ℕ) : ℕ := y / 4 - y / 100 + y / 400

/-- Days in year `y` before the first of month `m`. -/
def daysBeforeMonth (y m : ℕ) : ℕ :=
  ((List.range (m - 1)).map (fun k => daysInMonth y (k + 1))).sum

/-- `date.toordinal()`: day count with 0001-01-01 as day 1. -/
def toOrdinal (d : PyDate) : ℕ :=
  365 * (d.year - 1) + leapsBefore (d.year - 1) + daysBeforeMonth d.year d.month + d.day

/-- `date.weekday()`: Monday = 0 (0001-01-01 was a Monday). -/
def weekday (d : PyDate) : ℕ := (toOrdinal d + 6) % 7

/-- `%a`: abbreviated weekday name in the C locale. -/
def weekdayAbbrev (n : ℕ) : String :=
  ["Mon", "Tue", "Wed", "Thu", "Fri", "Sat", "Sun"].getD n ""

/-- `forecast_date.strftime("%d/%m")` (line 108). -/
def strftime_dm (d : PyDate) : String := pad2 d.day ++ "/" ++ pad2 d.month

/-- `forecast_date.strftime("%Y-%m-%d (%a)")` (line 114).  (`%Y` prints the
year unpadded on glibc; every year in play has four digits.) -/
def strftime_ymd_a (d : PyDate) : String :=
  toString d.year ++ "-" ++ pad2 d.month ++ "-" ++ pad2 d.day ++
    " (" ++ weekdayAbbrev (weekday d) ++ ")"

/-! ### `generate_alert` (lines 100-120) -/

/-- Python `sep.join(l)`. -/
def pyJoin (sep : String) : List String → String
  | [] => ""
  | [x] => x
  | x :: y :: rest => x ++ sep ++ pyJoin sep (y :: rest)

/-- Concatenation of a list of strings. -/
def pyConcat : List String → String
  | [] => ""
  | x :: rest => x ++ pyConcat rest

/-- `LOCATIONS[c]` (lines 108, 116): raises `KeyError` when the code is not
registered. -/
def getName (c : String) : Except PyError String :=
  match plookup c LOCATIONS with
  | none => .error (.keyError c)
  | some n => .ok n

/-- The `date_summary` list comprehension (lines 108-109): one
`DD/MM @Name1, Name2, ...` segment per date, in dict iteration
(first-seen) order. -/
def subjectSegs : List (PyDate × List (String × List ThreeHourForecast)) →
    Except PyError (List String)
  | [] => .ok []
  | (d, locs) :: rest =>
    match mapMExcept (fun p => getName p.1) locs with
    | .error e => .error e
    | .ok names =>
      match subjectSegs rest with
      | .error e => .error e
      | .ok segs => .ok ((strftime_dm d ++ " @" ++ pyJoin ", " names) :: segs)

/-- One location block of the body (lines 116-118): display name line, then
the tab-indented hourly summaries joined by newlines, then a final newline. -/
def locBlock (p : String × List ThreeHourForecast) : Except PyError String :=
  match getName p.1 with
  | .error e => .error e
  | .ok n =>
    .ok (n ++ "\n" ++ pyJoin "\n" (p.2.map (fun f => "\t" ++ summary f)) ++ "\n")

/-- The body-building loop (lines 112-118): per date a `%Y-%m-%d (%a)` line,
then the location blocks. -/
def bodyBlocks : List (PyDate × List (String × List ThreeHourForecast)) →
    Except PyError String
  | [] => .ok ""
  | (d, locs) :: rest =>
    match mapMExcept locBlock locs with
    | .error e => .error e
    | .ok blocks =>
      match bodyBlocks rest with
      | .error e => .error e
      | .ok b => .ok (strftime_ymd_a d ++ "\n" ++ pyConcat blocks ++ b)

/-- `generate_alert` (lines 100-120): group the findings, render subject then
body.  A `KeyError` from `LOCATIONS[...]` propagates. -/
def generate_alert (date_locations : List Finding) :
    Except PyError (String × String) :=
  match subjectSegs (group_by_date_location date_locations) with
  | .error e => .error e
  | .ok segs =>
    match bodyBlocks (group_by_date_location date_locations) with
    | .error e => .error e
    | .ok body => .ok ("Strong wind forecasted: " ++ pyJoin "; " segs, body)

/-! ### `lambda_handler` (lines 138-170)

The HTTP fetch is abstracted as a function from a location code to the list
of tables of the returned page (`r.html.find('table')`); the handler skips
the first table (`tables[1:]`, line 155).  The result models observable
behaviour towards the notifier: `.ok (some (subject, body))` means
`send_alert` was invoked with that message, `.ok none` means it was not
invoked, `.error e` means the run died with the uncaught exception `e`
(and `send_alert` was not invoked). -/

/-- Python dict iteration `for location in LOCATIONS` (line 150): keys in
insertion order. -/
def locationCodes : List String := LOCATIONS.map Prod.fst

/-- The inner loop over `tables[1:]` (lines 155-161) for one location:
parse each table, filter by `is_strong`, keep non-empty findings in table
order.  A parse exception propagates (there is no try/except). -/
def tablesFindings (loc : String) : List HTMLTable → Except PyError (List Finding)
  | [] => .ok []
  | t :: ts =>
    match parse_forecast_table t with
    | .error e => .error e
    | .ok (d, fs) =>
      let strong := fs.filter is_strong
      match tablesFindings loc ts with
      | .error e => .error e
      | .ok rest => .ok (if strong = [] then rest else (d, loc, strong) :: rest)

/-- The outer loop over locations (lines 150-161), accumulating
`strong_wind_date_locations` in order. -/
def collectFrom (fetch : String → List HTMLTable) :
    List String → Except PyError (List Finding)
  | [] => .ok []
  | loc :: rest =>
    match tablesFindings loc ((fetch loc).drop 1) with
    | .error e => .error e
    | .ok fs =>
      match collectFrom fetch rest with
      | .error e => .error e
      | .ok more => .ok (fs ++ more)

/-- All findings of one run (lines 146-161). -/
def collectFindings (fetch : String → List HTMLTable) :
    Except PyError (List Finding) :=
  collectFrom fetch locationCodes

/-- `lambda_handler` (lines 138-170): collect findings over all locations;
if any exist, generate and send the alert, else do nothing. -/
def lambda_handler (fetch : String → List HTMLTable) :
    Except PyError (Option (String × String)) :=
  match collectFindings fetch with
  | .error e => .error e
  | .ok findings =>
    if findings = [] then .ok none
    else
      match generate_alert findings with
      | .error e => .error e
      | .ok msg => .ok (some msg)

/-! ### Spec-side definitions (for refinement comparison)

These follow the wording of the specification, to be compared with the
definitions above that were translated from the source. -/

/-- Display name of a location code via the LocationRegistry, as the spec's
Alert Formatter uses it (the spec treats an unknown code as a programming
error; `getD` supplies a dummy that is never reached under the theorems'
registry hypotheses). -/
def displayName (c : String) : String := (plookup c LOCATIONS).getD ""

/-- Subject as worded in the spec: `"Strong wind forecasted: "` followed by
per-date segments joined by `"; "`, each segment being the date as `DD/MM`,
`" @"`, and the display names of that date's locations joined by `", "`. -/
def spec_subject (g : List (PyDate × List (String × List ThreeHourForecast))) :
    String :=
  "Strong wind forecasted: " ++
    pyJoin "; " (g.map (fun p =>
      strftime_dm p.1 ++ " @" ++ pyJoin ", " (p.2.map (fun q => displayName q.1))))

/-- Body as worded in the spec: for each date in first-seen order the date as
`YYYY-MM-DD (Ddd)` on its own line, then for each location in first-seen
order the display name on its own line followed by one line per strong
record `\t{hour}:00 - {windSpeed} km/h`, each location block ending with a
newline. -/
def spec_body (g : List (PyDate × List (String × List ThreeHourForecast))) :
    String :=
  pyConcat (g.map (fun p =>
    strftime_ymd_a p.1 ++ "\n" ++
      pyConcat (p.2.map (fun q =>
        displayName q.1 ++ "\n" ++
          pyConcat (q.2.map (fun f =>
            "\t" ++ toString f.hour ++ ":00 - " ++ toString f.wind_speed ++
              " km/h" ++ "\n"))))))

/-- Spec wording of the Aggregator: the records of the LAST finding in the
input carrying a given (date, location) pair, `none` when the pair never
occurs. -/
def lastWrite (d : PyDate) (c : String) : List Finding →
    Option (List ThreeHourForecast)
  | [] => none
  | x :: rest =>
    match lastWrite d c rest with
    | some v => some v
    | none => if d = x.1 ∧ c = x.2.1 then some x.2.2 else none

/-- The header sequence exactly as the specification spells it — with a
degree sign in `"Temperature (°C)"`, where the source has the letter o. -/
def specHeaders : List String :=
  ["Time (Hour)", "Temperature (°C)", "Wind Speed (km/h)", "Wind Direction",
   "3-Hourly Rainfall (mm)"]

/-! ### Concrete inputs used by the claims -/

/-- A well-formed table for 2024-03-05 with a single strong hour
(9:00, 25 km/h). -/
def strongTable : HTMLTable :=
  ⟨some "Forecast Date: 2024-3-5",
   [["Time (Hour)", "9"], ["Temperature (oC)", "20"],
    ["Wind Speed (km/h)", "25"], ["Wind Direction", "E"],
    ["3-Hourly Rainfall (mm)", "0"]]⟩

/-- A table whose transposed header column is exactly `specHeaders` (the
spec's spelling, degree sign included) with one valid data column. -/
def specHeaderTable : HTMLTable :=
  ⟨some "Forecast Date: 2024-3-5",
   [["Time (Hour)", "9"], ["Temperature (°C)", "20"],
    ["Wind Speed (km/h)", "25"], ["Wind Direction", "E"],
    ["3-Hourly Rainfall (mm)", "0"]]⟩

/-- A table with the first two header rows swapped (a reordering of the
expected headers). -/
def reorderedHeaderTable : HTMLTable :=
  ⟨some "Forecast Date: 2024-3-5",
   [["Temperature (oC)", "20"], ["Time (Hour)", "9"],
    ["Wind Speed (km/h)", "25"], ["Wind Direction", "E"],
    ["3-Hourly Rainfall (mm)", "0"]]⟩

/-- A well-formed table whose hour cell is the unparseable literal "zz". -/
def badHourTable : HTMLTable :=
  ⟨some "Forecast Date: 2024-3-5",
   [["Time (Hour)", "zz"], ["Temperature (oC)", "20"],
    ["Wind Speed (km/h)", "25"], ["Wind Direction", "E"],
    ["3-Hourly Rainfall (mm)", "0"]]⟩

/-- A well-formed table whose wind-speed cell is the same unparseable
literal "zz" (hour is fine). -/
def badWindTable : HTMLTable :=
  ⟨some "Forecast Date: 2024-3-5",
   [["Time (Hour)", "9"], ["Temperature (oC)", "20"],
    ["Wind Speed (km/h)", "zz"], ["Wind Direction", "E"],
    ["3-Hourly Rainfall (mm)", "0"]]⟩

/-- A well-formed table whose cells parse but violate the spec's data-model
ranges: hour 99, wind speed -5 km/h, rainfall -1 mm. -/
def outOfRangeTable : HTMLTable :=
  ⟨some "Forecast Date: 2024-3-5",
   [["Time (Hour)", "99"], ["Temperature (oC)", "20"],
    ["Wind Speed (km/h)", "-5"], ["Wind Direction", "E"],
    ["3-Hourly Rainfall (mm)", "-1"]]⟩

/-- The record `outOfRangeTable` parses to. -/
def outOfRangeRec : ThreeHourForecast := ⟨99, 20, -5, "E", -1⟩

/-- The three findings of the spec's aggregation-grouping example. -/
def exFindings : List Finding :=
  [(⟨2024, 3, 5⟩, "S", [⟨9, 20, 25, "E", 0⟩]),
   (⟨2024, 3, 5⟩, "TM", [⟨10, 18, 30, "NE", 0⟩]),
   (⟨2024, 3, 6⟩, "S", [⟨12, 19, 22, "SE", 0⟩])]

/-- A fetch result where only Stanley ("S") has a (strong-wind) forecast
table; the first table of each response is the non-forecast one the handler
skips. -/
def isolatedFetch : String → List HTMLTable :=
  fun loc => if loc = "S" then [⟨none, []⟩, strongTable] else []

/-- The same fetch result except that the first location processed
("TMTWSC") returns a malformed (captionless) forecast table. -/
def abortFetch : String → List HTMLTable :=
  fun loc => if loc = "TMTWSC" then [⟨none, []⟩, ⟨none, []⟩] else isolatedFetch loc

/-! ### Helper lemmas -/

theorem plookup_mem {α β : Type _} [DecidableEq α] {k : α} {v : β} :
    ∀ {l : List (α × β)}, plookup k l = some v → (k, v) ∈ l := by
  intro l
  induction l with
  | nil => intro h; simp [plookup] at h
  | cons p rest ih =>
    intro h
    unfold plookup at h
    by_cases hk : k = p.1
    · simp [hk] at h
      subst hk
      simp [← h]
    · simp [hk] at h
      exact List.mem_cons_of_mem _ (ih h)

theorem plookup_append {α β : Type _} [DecidableEq α] (k : α)
    (l l' : List (α × β)) :
    plookup k (l ++ l') =
      match plookup k l with
      | some v => some v
      | none => plookup k l' := by
  induction l with
  | nil => simp [plookup]
  | cons p rest ih =>
    by_cases hk : k = p.1 <;> simp [plookup, hk, ih]

theorem pySet_lookup {α β : Type _} [DecidableEq α] (l : List (α × β))
    (k k' : α) (v : β) :
    plookup k' (pySet l k v) = if k' = k then some v else plookup k' l := by
  induction l with
  | nil => by_cases hk : k' = k <;> simp [pySet, plookup, hk]
  | cons p rest ih =>
    by_cases hpk : p.1 = k
    · by_cases hk : k' = k <;>
        simp [pySet, plookup, hpk, hk, hpk ▸ hk]
    · by_cases hkp : k' = p.1
      · have hk : ¬k' = k := fun h => hpk (hkp ▸ h ▸ rfl)
        simp [pySet, plookup, hpk, hkp, hk]
      · by_cases hk : k' = k
        · subst hk
          simp [pySet, plookup, hpk, hkp, Ne.symm hpk, ih]
        · simp [pySet, plookup, hpk, hkp, hk, ih]

theorem pySet_mem {α β : Type _} [DecidableEq α] :
    ∀ {l : List (α × β)} {k : α} {v : β} {x : α × β}, x ∈ pySet l k v →
      x ∈ l ∨ x = (k, v) := by
  intro l
  induction l with
  | nil => intro k v x h; right; simpa [pySet] using h
  | cons p rest ih =>
    intro k v x h
    by_cases hpk : p.1 = k
    · simp [pySet, hpk] at h
      rcases h with h1 | h1
      · right; exact h1
      · left; exact List.mem_cons_of_mem _ h1
    · simp [pySet, hpk] at h
      rcases h with h1 | h1
      · left; simp [h1]
      · rcases ih h1 with h2 | h2
        · left; exact List.mem_cons_of_mem _ h2
        · right; exact h2

theorem groupStep_lookup2 (res : List (PyDate × List (String × List ThreeHourForecast)))
    (x : Finding) (d : PyDate) (c : String) :
    plookup2 (groupStep res x) d c =
      if d = x.1 ∧ c = x.2.1 then some x.2.2 else plookup2 res d c := by
  unfold groupStep
  cases hl : plookup x.1 res with
  | some inner =>
    unfold plookup2
    rw [pySet_lookup]
    by_cases hd : d = x.1
    · subst hd
      simp [hl, pySet_lookup]
    · simp [hd]
  | none =>
    unfold plookup2
    rw [plookup_append]
    by_cases hd : d = x.1
    · subst hd
      simp [hl, plookup]
    · simp [hd, plookup, fun h => hd (h : d = x.1)]
      cases plookup d res <;> simp

theorem lastWrite_cons (d : PyDate) (c : String) (x : Finding) (rest : List Finding) :
    lastWrite d c (x :: rest) =
      match lastWrite d c rest with
      | some v => some v
      | none => if d = x.1 ∧ c = x.2.1 then some x.2.2 else none := rfl

theorem foldl_groupStep_lookup2 :
    ∀ (l : List Finding) (acc : List (PyDate × List (String × List ThreeHourForecast)))
      (d : PyDate) (c : String),
      plookup2 (l.foldl groupStep acc) d c =
        match lastWrite d c l with
        | some v => some v
        | none => plookup2 acc d c := by
  intro l
  induction l with
  | nil => intro acc d c; simp [lastWrite]
  | cons x rest ih =>
    intro acc d c
    show plookup2 (rest.foldl groupStep (groupStep acc x)) d c = _
    rw [ih, groupStep_lookup2, lastWrite_cons]
    cases hlw : lastWrite d c rest with
    | some v => simp
    | none => by_cases h : d = x.1 ∧ c = x.2.1 <;> simp [h]

theorem foldl_groupStep_mem (Q : PyDate → String → List ThreeHourForecast → Prop) :
    ∀ (l : List Finding) (acc : List (PyDate × List (String × List ThreeHourForecast))),
      (∀ p ∈ acc, ∀ q ∈ p.2, Q p.1 q.1 q.2) →
      (∀ x ∈ l, Q x.1 x.2.1 x.2.2) →
      ∀ p ∈ l.foldl groupStep acc, ∀ q ∈ p.2, Q p.1 q.1 q.2 := by
  intro l
  induction l with
  | nil => intro acc hacc _ p hp; exact hacc p hp
  | cons x rest ih =>
    intro acc hacc hl p hp
    refine ih (groupStep acc x) ?_ (fun y hy => hl y (List.mem_cons_of_mem _ hy)) p hp
    intro p' hp' q hq
    have hx : Q x.1 x.2.1 x.2.2 := hl x (List.mem_cons_self _ _)
    unfold groupStep at hp'
    revert hp'
    cases hlk : plookup x.1 acc with
    | some inner =>
      intro hp'
      rcases pySet_mem hp' with hin | heq
      · exact hacc p' hin q hq
      · subst heq
        rcases pySet_mem hq with hq1 | hq2
        · exact hacc (x.1, inner) (plookup_mem hlk) q hq1
        · subst hq2; exact hx
    | none =>
      intro hp'
      rcases List.mem_append.mp hp' with h1 | h1
      · exact hacc p' h1 q hq
      · have : p' = (x.1, [(x.2.1, x.2.2)]) := by simpa using h1
        subst this
        have : q = (x.2.1, x.2.2) := by simpa using hq
        subst this
        exact hx

theorem group_mem (Q : PyDate → String → List ThreeHourForecast → Prop)
    (l : List Finding) (hl : ∀ x ∈ l, Q x.1 x.2.1 x.2.2) :
    ∀ p ∈ group_by_date_location l, ∀ q ∈ p.2, Q p.1 q.1 q.2 :=
  foldl_groupStep_mem Q l [] (by simp) hl

theorem mapMExcept_ok_mem {α β : Type _} {f : α → Except PyError β} :
    ∀ {l : List α} {ys : List β}, mapMExcept f l = .ok ys →
      ∀ y ∈ ys, ∃ x ∈ l, f x = .ok y := by
  intro l
  induction l with
  | nil => intro ys h y hy; simp [mapMExcept] at h; subst h; simp at hy
  | cons x rest ih =>
    intro ys h y hy
    unfold mapMExcept at h
    cases hfx : f x with
    | error e => simp [hfx] at h
    | ok z =>
      rw [hfx] at h
      cases hrest : mapMExcept f rest with
      | error e => simp [hrest] at h
      | ok zs =>
        rw [hrest] at h
        cases h
        rcases List.mem_cons.mp hy with h1 | h1
        · exact ⟨x, List.mem_cons_self _ _, h1 ▸ hfx⟩
        · rcases ih hrest y h1 with ⟨x', hx', hfx'⟩
          exact ⟨x', List.mem_cons_of_mem _ hx', hfx'⟩

theorem mapMExcept_error_mem {α β : Type _} {f : α → Except PyError β} :
    ∀ {l : List α} {e : PyError}, mapMExcept f l = .error e →
      ∃ x ∈ l, f x = .error e := by
  intro l
  induction l with
  | nil => intro e h; simp [mapMExcept] at h
  | cons x rest ih =>
    intro e h
    unfold mapMExcept at h
    cases hfx : f x with
    | error e' =>
      rw [hfx] at h
      cases h
      exact ⟨x, List.mem_cons_self _ _, hfx⟩
    | ok z =>
      rw [hfx] at h
      cases hrest : mapMExcept f rest with
      | error e' =>
        rw [hrest] at h
        cases h
        rcases ih hrest with ⟨x', hx', hfx'⟩
        exact ⟨x', List.mem_cons_of_mem _ hx', hfx'⟩
      | ok zs => rw [hrest] at h; cases h

theorem mapMExcept_error_of_mem {α β : Type _} {f : α → Except PyError β}
    {x : α} {e : PyError} :
    ∀ {l : List α}, x ∈ l → f x = .error e →
      ∃ e', mapMExcept f l = .error e' := by
  intro l
  induction l with
  | nil => intro h; simp at h
  | cons z rest ih =>
    intro hmem hfx
    unfold mapMExcept
    cases hfz : f z with
    | error e' => exact ⟨e', rfl⟩
    | ok w =>
      rcases List.mem_cons.mp hmem with h1 | h1
      · subst h1; rw [hfx] at hfz; cases hfz
      · rcases ih h1 hfx with ⟨e', he'⟩
        rw [he']
        exact ⟨e', rfl⟩

theorem mapMExcept_eq_ok_map {α β : Type _} {f : α → Except PyError β}
    {g : α → β} :
    ∀ {l : List α}, (∀ x ∈ l, f x = .ok (g x)) →
      mapMExcept f l = .ok (l.map g) := by
  intro l
  induction l with
  | nil => intro _; rfl
  | cons x rest ih =>
    intro h
    unfold mapMExcept
    rw [h x (List.mem_cons_self _ _), ih (fun y hy => h y (List.mem_cons_of_mem _ hy))]
    rfl

theorem pyJoin_concat (sep : String) :
    ∀ (l : List String), l ≠ [] →
      pyJoin sep l ++ sep = pyConcat (l.map (fun s => s ++ sep)) := by
  intro l
  induction l with
  | nil => intro h; exact absurd rfl h
  | cons x rest ih =>
    intro _
    cases rest with
    | nil => simp [pyJoin, pyConcat]
    | cons y t =>
      have := ih (by simp)
      simp only [pyJoin, List.map, pyConcat] at this ⊢
      rw [String.append_assoc, String.append_assoc, this]
      simp [String.append_assoc]

theorem getName_ok {c : String} (h : (plookup c LOCATIONS).isSome) :
    getName c = .ok (displayName c) := by
  unfold getName displayName
  cases hl : plookup c LOCATIONS with
  | none => rw [hl] at h; simp at h
  | some n => simp [hl]

theorem subjectSegs_ok :
    ∀ (g : List (PyDate × List (String × List ThreeHourForecast))),
      (∀ p ∈ g, ∀ q ∈ p.2, (plookup q.1 LOCATIONS).isSome) →
      subjectSegs g = .ok (g.map (fun p =>
        strftime_dm p.1 ++ " @" ++ pyJoin ", " (p.2.map (fun q => displayName q.1)))) := by
  intro g
  induction g with
  | nil => intro _; rfl
  | cons p rest ih =>
    intro h
    obtain ⟨d, locs⟩ := p
    have hnames : mapMExcept (fun q => getName q.1) locs =
        .ok (locs.map (fun q => displayName q.1)) :=
      mapMExcept_eq_ok_map (fun q hq =>
        getName_ok (h (d, locs) (List.mem_cons_self _ _) q hq))
    unfold subjectSegs
    rw [hnames, ih (fun p' hp' => h p' (List.mem_cons_of_mem _ hp'))]
    rfl

theorem locBlock_ok {q : String × List ThreeHourForecast}
    (hreg : (plookup q.1 LOCATIONS).isSome) (hne : q.2 ≠ []) :
    locBlock q = .ok (displayName q.1 ++ "\n" ++
      pyConcat (q.2.map (fun f =>
        "\t" ++ toString f.hour ++ ":00 - " ++ toString f.wind_speed ++
          " km/h" ++ "\n"))) := by
  have h1 : locBlock q = .ok (displayName q.1 ++ "\n" ++
      pyJoin "\n" (q.2.map (fun f => "\t" ++ summary f)) ++ "\n") := by
    unfold locBlock
    rw [getName_ok hreg]
  rw [h1]
  refine congrArg Except.ok ?_
  have hmap : q.2.map (fun f => "\t" ++ summary f) ≠ [] := by
    cases hq : q.2 with
    | nil => exact absurd hq hne
    | cons a t => simp [hq]
  have hj := pyJoin_concat "\n" (q.2.map (fun f => "\t" ++ summary f)) hmap
  rw [String.append_assoc, hj, List.map_map]
  have hfun : ((fun s => s ++ "\n") ∘ fun f => "\t" ++ summary f) =
      (fun f => "\t" ++ toString f.hour ++ ":00 - " ++ toString f.wind_speed ++
        " km/h" ++ "\n") := by
    funext f
    simp [Function.comp, summary, String.append_assoc]
  rw [hfun, String.append_assoc]

theorem bodyBlocks_ok :
    ∀ (g : List (PyDate × List (String × List ThreeHourForecast))),
      (∀ p ∈ g, ∀ q ∈ p.2, (plookup q.1 LOCATIONS).isSome ∧ q.2 ≠ []) →
      bodyBlocks g = .ok (spec_body g) := by
  intro g
  induction g with
  | nil => intro _; rfl
  | cons p rest ih =>
    intro h
    obtain ⟨d, locs⟩ := p
    have hblocks : mapMExcept locBlock locs = .ok (locs.map (fun q =>
        displayName q.1 ++ "\n" ++ pyConcat (q.2.map (fun f =>
          "\t" ++ toString f.hour ++ ":00 - " ++ toString f.wind_speed ++
            " km/h" ++ "\n")))) :=
      mapMExcept_eq_ok_map (fun q hq =>
        locBlock_ok (h (d, locs) (List.mem_cons_self _ _) q hq).1
          (h (d, locs) (List.mem_cons_self _ _) q hq).2)
    unfold bodyBlocks
    rw [hblocks, ih (fun p' hp' => h p' (List.mem_cons_of_mem _ hp'))]
    show Except.ok _ = Except.ok _
    unfold spec_body
    simp [pyConcat, String.append_assoc]

theorem generate_alert_eq
    (dls : List Finding)
    (h : ∀ p ∈ group_by_date_location dls, ∀ q ∈ p.2,
      (plookup q.1 LOCATIONS).isSome ∧ q.2 ≠ []) :
    generate_alert dls = .ok (spec_subject (group_by_date_location dls),
      spec_body (group_by_date_location dls)) := by
  unfold generate_alert spec_subject
  rw [subjectSegs_ok _ (fun p hp q hq => (h p hp q hq).1), bodyBlocks_ok _ h]

theorem tablesFindings_mem {loc : String} :
    ∀ {ts : List HTMLTable} {l : List Finding}, tablesFindings loc ts = .ok l →
      ∀ x ∈ l, x.2.1 = loc ∧ x.2.2 ≠ [] := by
  intro ts
  induction ts with
  | nil => intro l h x hx; cases h; simp at hx
  | cons t rest ih =>
    intro l h x hx
    unfold tablesFindings at h
    cases hp : parse_forecast_table t with
    | error e => rw [hp] at h; cases h
    | ok df =>
      rw [hp] at h
      cases hr : tablesFindings loc rest with
      | error e => rw [hr] at h; cases h
      | ok more =>
        rw [hr] at h
        cases h
        by_cases hs : df.2.filter is_strong = []
        · rw [if_pos hs] at hx
          exact ih hr x hx
        · rw [if_neg hs] at hx
          rcases List.mem_cons.mp hx with h1 | h1
          · subst h1; exact ⟨rfl, hs⟩
          · exact ih hr x h1

theorem collectFrom_mem {fetch : String → List HTMLTable} :
    ∀ {locs : List String} {fnd : List Finding},
      collectFrom fetch locs = .ok fnd →
      ∀ x ∈ fnd, x.2.1 ∈ locs ∧ x.2.2 ≠ [] := by
  intro locs
  induction locs with
  | nil => intro fnd h x hx; cases h; simp at hx
  | cons loc rest ih =>
    intro fnd h x hx
    unfold collectFrom at h
    cases ht : tablesFindings loc ((fetch loc).drop 1) with
    | error e => rw [ht] at h; cases h
    | ok fs =>
      rw [ht] at h
      cases hr : collectFrom fetch rest with
      | error e => rw [hr] at h; cases h
      | ok more =>
        rw [hr] at h
        cases h
        rcases List.mem_append.mp hx with h1 | h1
        · rcases tablesFindings_mem ht x h1 with ⟨hcode, hne⟩
          exact ⟨hcode ▸ List.mem_cons_self _ _, hne⟩
        · rcases ih hr x h1 with ⟨hcode, hne⟩
          exact ⟨List.mem_cons_of_mem _ hcode, hne⟩

theorem locationCodes_registered :
    ∀ c ∈ locationCodes, (plookup c LOCATIONS).isSome := by decide

theorem collect_generate_ok {fetch : String → List HTMLTable} {fnd : List Finding}
    (h : collectFindings fetch = .ok fnd) :
    generate_alert fnd = .ok (spec_subject (group_by_date_location fnd),
      spec_body (group_by_date_location fnd)) := by
  refine generate_alert_eq fnd
    (group_mem (fun _ c fs => (plookup c LOCATIONS).isSome = true ∧ fs ≠ []) fnd ?_)
  intro x hx
  rcases collectFrom_mem h x hx with ⟨hcode, hne⟩
  exact ⟨locationCodes_registered _ hcode, hne⟩

theorem fromTuple_not_shape (cells : List String) :
    fromTuple cells ≠ .error .tableShapeError := by
  unfold fromTuple
  split
  · unfold from_strings
    split <;> try simp
    split <;> try simp
    split <;> try simp
    split <;> simp
  · simp

/-! ### The claims -/

/-- C1: `is_strong` returns true iff `windSpeed >= 20` and `9 <= hour <= 16`
(both bounds inclusive); in particular hour 9 / speed 20 and hour 16 /
speed 20 are strong, while hour 8 / speed 20, hour 9 / speed 19 and
hour 17 / speed 100 are not.  The predicate is a total function with no
failure modes. -/
theorem is_strong_spec :
    (∀ f : ThreeHourForecast,
      is_strong f = true ↔ (20 ≤ f.wind_speed ∧ 9 ≤ f.hour ∧ f.hour ≤ 16)) ∧
    is_strong ⟨9, 0, 20, "", 0⟩ = true ∧
    is_strong ⟨16, 0, 20, "", 0⟩ = true ∧
    is_strong ⟨8, 0, 20, "", 0⟩ = false ∧
    is_strong ⟨9, 0, 19, "", 0⟩ = false ∧
    is_strong ⟨17, 0, 100, "", 0⟩ = false := by
  refine ⟨?_, by decide, by decide, by decide, by decide, by decide⟩
  intro f
  simp [is_strong, MIN_WIND_SPEED, HOUR_RANGE]

/-- C2 counterexample: a table whose transposed header column is exactly the
five header strings as the claim spells them — `"Temperature (°C)"` with a
degree sign — does NOT pass header validation: the source's
`EXPECTED_DIMENSIONS` spell it `"Temperature (oC)"` with a letter o, so the
parse fails with the table-shape error. -/
theorem spec_headers_rejected :
    pyZip specHeaderTable.rows = [specHeaders, ["9", "20", "25", "E", "0"]] ∧
    specHeaders ≠ EXPECTED_DIMENSIONS ∧
    parse_forecast_table specHeaderTable = .error .tableShapeError := by
  refine ⟨by decide, by decide, by decide⟩

/-- C2 amended: for every table past caption validation whose transposed
first column differs from the source's `EXPECTED_DIMENSIONS` (spelled
`"Temperature (oC)"`) the parse fails with the table-shape error, and a
table whose header column equals `EXPECTED_DIMENSIONS` passes header
validation (whatever else happens, it does not fail with the table-shape
error). -/
theorem header_validation_exact (t : HTMLTable) (cap : String) (d0 : PyDate)
    (hd : List String) (rest : List (List String))
    (hcap : t.caption = some cap) (hdate : parseCaptionDate cap = .ok d0)
    (hzip : pyZip t.rows = hd :: rest) :
    (hd ≠ EXPECTED_DIMENSIONS →
      parse_forecast_table t = .error .tableShapeError) ∧
    (hd = EXPECTED_DIMENSIONS →
      parse_forecast_table t ≠ .error .tableShapeError) := by
  constructor
  · intro hne
    simp only [parse_forecast_table, hcap, hdate, hzip]
    rw [if_neg hne]
  · intro heq
    simp only [parse_forecast_table, hcap, hdate, hzip]
    rw [if_pos heq]
    cases hm : mapMExcept fromTuple rest with
    | error e =>
      rcases mapMExcept_error_mem hm with ⟨x, _, hfx⟩
      simp only [hm]
      intro hcontra
      have he : e = PyError.tableShapeError := by
        injection hcontra
      exact fromTuple_not_shape x (he ▸ hfx)
    | ok fs => simp [hm]

/-- C2 witness: the amended theorem applied to a concrete table with the
first two headers swapped. -/
theorem header_validation_exact_witness :
    parse_forecast_table reorderedHeaderTable = .error .tableShapeError :=
  (header_validation_exact reorderedHeaderTable "Forecast Date: 2024-3-5"
    ⟨2024, 3, 5⟩
    ["Temperature (oC)", "Time (Hour)", "Wind Speed (km/h)", "Wind Direction",
     "3-Hourly Rainfall (mm)"]
    [["20", "9", "25", "E", "0"]]
    rfl (by decide) (by decide)).1 (by decide)

/-- C3: for every findings list whose location codes are registered and whose
record lists are non-empty (as every AlertAggregate input is),
`generate_alert` returns exactly the subject and body described by the spec:
subject `"Strong wind forecasted: "` plus per-date `DD/MM @Name1, Name2`
segments joined by `"; "`, and a body with a `YYYY-MM-DD (Ddd)` line per
date followed per location by the display name line and one
tab-indented `{hour}:00 - {windSpeed} km/h` line per record, each location
block ending with a newline. -/
theorem generate_alert_spec_format (dls : List Finding)
    (hreg : ∀ x ∈ dls, (plookup x.2.1 LOCATIONS).isSome)
    (hne : ∀ x ∈ dls, x.2.2 ≠ []) :
    generate_alert dls = .ok (spec_subject (group_by_date_location dls),
      spec_body (group_by_date_location dls)) :=
  generate_alert_eq dls
    (group_mem (fun _ c fs => (plookup c LOCATIONS).isSome = true ∧ fs ≠ [])
      dls (fun x hx => ⟨hreg x hx, hne x hx⟩))

/-- C3 witness: the formatting theorem applied to the concrete three-finding
example. -/
theorem generate_alert_spec_format_witness :
    generate_alert exFindings =
      .ok (spec_subject (group_by_date_location exFindings),
        spec_body (group_by_date_location exFindings)) :=
  generate_alert_spec_format exFindings (by decide) (by decide)

/-- C4: `group_by_date_location` is total (it is a Lean function) and maps
every (date, location) pair to the records of the last finding in the input
with that pair (last-write-wins); on the three-finding example it yields two
dates, 2024-03-05 with two locations and 2024-03-06 with one. -/
theorem grouping_last_write_wins :
    (∀ (l : List Finding) (d : PyDate) (c : String),
      plookup2 (group_by_date_location l) d c = lastWrite d c l) ∧
    (group_by_date_location exFindings).length = 2 ∧
    plookup ⟨2024, 3, 5⟩ (group_by_date_location exFindings) =
      some [("S", [⟨9, 20, 25, "E", 0⟩]), ("TM", [⟨10, 18, 30, "NE", 0⟩])] ∧
    plookup ⟨2024, 3, 6⟩ (group_by_date_location exFindings) =
      some [("S", [⟨12, 19, 22, "SE", 0⟩])] := by
  refine ⟨?_, by decide, by decide, by decide⟩
  intro l d c
  show plookup2 (l.foldl groupStep []) d c = lastWrite d c l
  rw [foldl_groupStep_lookup2]
  cases h : lastWrite d c l <;> simp [plookup2, plookup]

/-- C5: the notifier is invoked exactly when the completed collection over
all locations yields at least one finding, and when the findings list is
empty the handler returns without invoking the notifier. -/
theorem notifier_iff_findings (fetch : String → List HTMLTable) :
    ((∃ m, lambda_handler fetch = .ok (some m)) ↔
      (∃ fnd, collectFindings fetch = .ok fnd ∧ fnd ≠ [])) ∧
    (∀ fnd, collectFindings fetch = .ok fnd → fnd = [] →
      lambda_handler fetch = .ok none) := by
  constructor
  · constructor
    · rintro ⟨m, hm⟩
      cases hc : collectFindings fetch with
      | error e => simp [lambda_handler, hc] at hm
      | ok fnd =>
        by_cases hne : fnd = []
        · simp [lambda_handler, hc, hne] at hm
        · exact ⟨fnd, rfl, hne⟩
    · rintro ⟨fnd, hc, hne⟩
      refine ⟨(spec_subject (group_by_date_location fnd),
        spec_body (group_by_date_location fnd)), ?_⟩
      simp [lambda_handler, hc, hne, collect_generate_ok hc]
  · intro fnd hc hnil
    simp [lambda_handler, hc, hnil]

/-- C5 witness: a run in which every location returns no tables collects no
findings and does not invoke the notifier. -/
theorem notifier_iff_findings_witness :
    lambda_handler (fun _ => []) = .ok none :=
  (notifier_iff_findings (fun _ => [])).2 [] rfl rfl

/-- C6 counterexample: a parse failure for the first location aborts the
whole run — with `abortFetch` (location "TMTWSC" returns a captionless
forecast table, Stanley has a strong-wind table) the handler dies with the
missing-caption error and no alert is sent, even though the identical run
without the failing location (`isolatedFetch`) alerts for Stanley. -/
theorem location_failure_aborts_run :
    lambda_handler abortFetch = .error .missingCaptionError ∧
    lambda_handler isolatedFetch =
      .ok (some ("Strong wind forecasted: 05/03 @Stanley",
        "2024-03-05 (Tue)\nStanley\n\t9:00 - 25 km/h\n")) := by
  exact ⟨rfl, rfl⟩

/-- C6 amended: a fetch/parse failure for one location is NOT isolated: the
first error raised while collecting findings propagates out of
`lambda_handler`, aborting the processing of the remaining locations and
suppressing alerting for all findings. -/
theorem collect_error_propagates (fetch : String → List HTMLTable)
    (e : PyError) (h : collectFindings fetch = .error e) :
    lambda_handler fetch = .error e := by
  simp [lambda_handler, h]

/-- C6 witness: the propagation theorem applied to the concrete aborting
run. -/
theorem collect_error_propagates_witness :
    lambda_handler abortFetch = .error .missingCaptionError :=
  collect_error_propagates abortFetch .missingCaptionError rfl

/-- C7 counterexample: the parser's conversion failure does not name the
offending field — a table whose hour cell is "zz" and a table whose
wind-speed cell is "zz" are different tables with different offending
fields, yet both fail with the identical error (the `ValueError` carrying
only the literal "zz"), so the error cannot identify the field.  (There is
also no `FieldParseError` class: the bare `ValueError` from `int`/`float`
propagates.) -/
theorem conversion_error_lacks_field :
    parse_forecast_table badHourTable = .error (.valueError "zz") ∧
    parse_forecast_table badWindTable = .error (.valueError "zz") ∧
    badHourTable ≠ badWindTable := by
  refine ⟨by decide, by decide, by decide⟩

/-- C7 amended: for every table that passes caption and header validation,
if the strict conversion of any per-hour 5-tuple fails, the whole table
fails with the propagated conversion error (carrying the offending value,
not the field) and no record of the table is produced. -/
theorem conversion_failure_fatal (t : HTMLTable) (cap : String) (d0 : PyDate)
    (rest : List (List String)) (cells : List String) (e : PyError)
    (hcap : t.caption = some cap) (hdate : parseCaptionDate cap = .ok d0)
    (hzip : pyZip t.rows = EXPECTED_DIMENSIONS :: rest)
    (hmem : cells ∈ rest) (hfail : fromTuple cells = .error e) :
    (∃ e', parse_forecast_table t = .error e') ∧
    ∀ d fs, parse_forecast_table t ≠ .ok (d, fs) := by
  rcases mapMExcept_error_of_mem hmem hfail with ⟨e', he'⟩
  have hp : parse_forecast_table t = .error e' := by
    simp only [parse_forecast_table, hcap, hdate, hzip]
    simp [he']
  exact ⟨⟨e', hp⟩, fun d fs hcontra => by rw [hp] at hcontra; cases hcontra⟩

/-- C7 witness: the fatality theorem applied to the table with the bad hour
cell. -/
theorem conversion_failure_fatal_witness :
    (∃ e', parse_forecast_table badHourTable = .error e') ∧
    ∀ d fs, parse_forecast_table badHourTable ≠ .ok (d, fs) :=
  conversion_failure_fatal badHourTable "Forecast Date: 2024-3-5"
    ⟨2024, 3, 5⟩ [["zz", "20", "25", "E", "0"]] ["zz", "20", "25", "E", "0"]
    (.valueError "zz") rfl (by decide) (by decide) (by decide) (by decide)

/-- C8: caption handling — no caption fails with the missing-caption error;
caption "Forecast Date: 2024-3-5" parses to the calendar date 2024-03-05;
caption "Forecast Date: 2024/03/05" (pattern mismatch) fails with the
date-format error, as does "Forecast Date: 2024-2-30", whose captured text
matches the pattern but is not a valid calendar date; in general EVERY
caption the regex does not match, and EVERY caption whose captured
year/month/day triple fails `strptime` calendar validation, makes the
parser fail with the date-format error. -/
theorem caption_handling :
    (∀ rows, parse_forecast_table ⟨none, rows⟩ = .error .missingCaptionError) ∧
    parseCaptionDate "Forecast Date: 2024-3-5" = .ok ⟨2024, 3, 5⟩ ∧
    (∀ rows, parse_forecast_table ⟨some "Forecast Date: 2024/03/05", rows⟩ =
      .error .dateFormatError) ∧
    (∀ rows, parse_forecast_table ⟨some "Forecast Date: 2024-2-30", rows⟩ =
      .error .dateFormatError) ∧
    matchForecastDate "Forecast Date: 2024-2-30" = some (2024, 2, 30) ∧
    strptimeDate 2024 2 30 = none ∧
    (∀ cap rows, matchForecastDate cap = none →
      parse_forecast_table ⟨some cap, rows⟩ = .error .dateFormatError) ∧
    (∀ cap y m d rows, matchForecastDate cap = some (y, m, d) →
      strptimeDate y m d = none →
      parse_forecast_table ⟨some cap, rows⟩ = .error .dateFormatError) := by
  refine ⟨fun _ => rfl, by decide, fun _ => rfl, fun _ => rfl, by decide, by decide,
    ?_, ?_⟩
  · intro cap rows hm
    have hc : parseCaptionDate cap = .error .dateFormatError := by
      simp [parseCaptionDate, hm]
    simp [parse_forecast_table, hc]
  · intro cap y m d rows hm hs
    have hc : parseCaptionDate cap = .error .dateFormatError := by
      simp [parseCaptionDate, hm, hs]
    simp [parse_forecast_table, hc]

/-- C8 witness: the two universal date-format conjuncts applied to the
concrete pattern-mismatch caption and the concrete invalid-calendar-date
caption. -/
theorem caption_handling_witness :
    parse_forecast_table ⟨some "Forecast Date: 2024/03/05", []⟩ =
      .error .dateFormatError ∧
    parse_forecast_table ⟨some "Forecast Date: 2024-2-30", []⟩ =
      .error .dateFormatError :=
  ⟨caption_handling.2.2.2.2.2.2.1 "Forecast Date: 2024/03/05" [] (by decide),
   caption_handling.2.2.2.2.2.2.2 "Forecast Date: 2024-2-30" 2024 2 30 []
     (by decide) (by decide)⟩

/-- C9 counterexample: the parser performs no range validation — a table
whose cells read hour 99, wind speed -5 and rainfall -1.5 parses
successfully into a record violating all three data-model ranges. -/
theorem parser_accepts_out_of_range :
    parse_forecast_table outOfRangeTable = .ok (⟨2024, 3, 5⟩, [outOfRangeRec]) ∧
    ¬(0 ≤ outOfRangeRec.hour ∧ outOfRangeRec.hour ≤ 23 ∧
      0 ≤ outOfRangeRec.wind_speed ∧ 0 ≤ outOfRangeRec.rain_fall) := by
  refine ⟨by decide, by decide⟩

/-- C9 amended: every record of a successful parse is exactly the strict
type conversion of one transposed data column of the table (hour and
windSpeed via `int`, rainfall via `float`); no range check is applied, so
the data-model ranges hold only when the underlying cell texts denote
values in range. -/
theorem records_from_strict_conversion (t : HTMLTable) (d : PyDate)
    (fs : List ThreeHourForecast) (f : ThreeHourForecast)
    (hok : parse_forecast_table t = .ok (d, fs)) (hf : f ∈ fs) :
    ∃ cells ∈ (pyZip t.rows).drop 1, fromTuple cells = .ok f := by
  unfold parse_forecast_table at hok
  split at hok
  · cases hok
  · split at hok
    · cases hok
    · split at hok
      · cases hok
      · next hd rest hzip =>
        split at hok
        · split at hok
          · cases hok
          · next fs' hm =>
            cases hok
            rcases mapMExcept_ok_mem hm f hf with ⟨cells, hc, hfc⟩
            refine ⟨cells, ?_, hfc⟩
            rw [hzip]
            simpa using hc
        · cases hok

/-- C9 witness: the conversion-origin theorem applied to the well-formed
strong-wind table. -/
theorem records_from_strict_conversion_witness :
    ∃ cells ∈ (pyZip strongTable.rows).drop 1,
      fromTuple cells = .ok ⟨9, 20, 25, "E", 0⟩ :=
  records_from_strict_conversion strongTable ⟨2024, 3, 5⟩
    [⟨9, 20, 25, "E", 0⟩] ⟨9, 20, 25, "E", 0⟩ (by decide) (by decide)

/-- C10: a table with a well-formed caption and zero rows does not fail with
the table-shape error: the transposed row list is empty and indexing its
first element fails with the uncaught `IndexError` before header validation
runs. -/
theorem empty_table_index_error :
    (∀ cap d0, parseCaptionDate cap = .ok d0 →
      parse_forecast_table ⟨some cap, []⟩ = .error .indexError) ∧
    pyZip ([] : List (List String)) = [] ∧
    PyError.indexError ≠ PyError.tableShapeError := by
  refine ⟨?_, rfl, by decide⟩
  intro cap d0 h
  simp [parse_forecast_table, h, pyZip]

/-- C10 witness: the empty-rows theorem applied to a concrete well-formed
caption. -/
theorem empty_table_index_error_witness :
    parse_forecast_table ⟨some "Forecast Date: 2024-3-5", []⟩ =
      .error .indexError :=
  empty_table_index_error.1 "Forecast Date: 2024-3-5" ⟨2024, 3, 5⟩ (by decide)

end WindAlert
